import Mathlib

/-!
Verification development for the `ggtree` repository.

The repository has two source components:

* `src/components/TouchInput.tsx` — a touch gesture classifier.  It keeps
  per-session mutable refs (`lastTouchRef`, `lastDistRef`,
  `touchStartTimeRef`, `startTouchPosRef`, `isDraggingRef`) and, on each
  touch event, updates external accumulators (`rotationBoost`, `panOffset`,
  `zoomOffset`, `pointer`, `clickTrigger`).
* `src/components/TreeCreator.tsx` — generation and parsing of a
  colour-sharing URL (`generateShareLink` and the `useEffect` reading the
  query parameters `c1`, `c2`, `c3`).

Numbers are modelled as rationals (`ℚ`): the JavaScript code performs
ordinary arithmetic on `number`s and no claim under verification depends
on floating-point rounding.  The only non-rational operation in the
source, `Math.hypot`, is abstracted as an explicit function parameter
`hypot : ℚ → ℚ → ℚ`; concrete runs use `hypotX`, which coincides with the
Euclidean `Math.hypot` whenever the two touch points share a `y`
coordinate (so all concrete scenarios place the fingers on a horizontal
line, where `hypotX` is exact).
-/

namespace GGTree

/-- Screen-pixel touch point, from `{ x: t.clientX, y: t.clientY }`. -/
structure Point where
  x : ℚ
  y : ℚ
deriving DecidableEq, Repr

/-- Mutable refs of `TouchInput` (lines 18-22 of `TouchInput.tsx`):
`lastTouchRef`, `lastDistRef`, `touchStartTimeRef`, `startTouchPosRef`,
`isDraggingRef`. -/
structure TouchState where
  lastTouch : List Point
  lastDist : Option ℚ
  touchStartTime : ℚ
  startTouchPos : Option Point
  isDragging : Bool
deriving DecidableEq, Repr

/-- External accumulators written through the context setters
(`setRotationBoost`, `setPanOffset`, `setZoomOffset`, `setPointer`,
`setClickTrigger`).  `clickTrigger` holds the last timestamp passed to
`setClickTrigger`, `none` before any tap. -/
structure Signals where
  rotationBoost : ℚ
  panOffset : Point
  zoomOffset : ℚ
  pointer : Point
  clickTrigger : Option ℚ
deriving DecidableEq, Repr

/-- Constant `TAP_THRESHOLD = 10` (declared in the source, line 25; unused by
the three handlers). -/
def TAP_THRESHOLD : ℚ := 10

/-- Constant `TAP_TIMEOUT = 300` (milliseconds). -/
def TAP_TIMEOUT : ℚ := 300

/-- Indexing `touches[i]` of the source; the default value is never
reached because every access is guarded by a length check. -/
def pt (l : List Point) (i : Nat) : Point := l.getD i ⟨0, 0⟩

/-- Stand-in for `Math.hypot dx dy` on horizontally aligned fingers:
equals the Euclidean distance exactly when `dy = 0`.  Used to run the
model on concrete inputs whose touch points all lie on the line `y = 0`. -/
def hypotX (dx : ℚ) (_dy : ℚ) : ℚ := |dx|

/-- Handler `handleTouchStart` (lines 28-49): records the touch list, resets the
session clock and the drag flag; with one touch it stores the start
position and emits the normalized pointer, with two touches it stores the
inter-finger distance. -/
def handleTouchStart (hypot : ℚ → ℚ → ℚ) (vw vh now : ℚ) (touches : List Point)
    (s : TouchState) (sig : Signals) : TouchState × Signals :=
  let s0 : TouchState :=
    { s with lastTouch := touches, touchStartTime := now, isDragging := false }
  if touches.length = 1 then
    ({ s0 with startTouchPos := some (pt touches 0) },
     { sig with pointer := ⟨(pt touches 0).x / vw, (pt touches 0).y / vh⟩ })
  else if touches.length = 2 then
    ({ s0 with lastDist := some (hypot ((pt touches 0).x - (pt touches 1).x)
                                       ((pt touches 0).y - (pt touches 1).y)) }, sig)
  else
    (s0, sig)

/-- Handler `handleTouchMove` (lines 51-116).  Block 1 (single finger) fires when
both the current and the previous sample have exactly one point: it sets
the drag flag when either axis moved more than 2 px, updates the rotation
accumulator (mode `"FORMED"`) or the pan accumulator (any other mode), and
emits the normalized pointer.  Block 2 (pinch) fires when both samples
have exactly two points and a previous pinch distance is stored: it sets
the drag flag, updates the clamped zoom accumulator and stores the new
distance.  Finally `lastTouchRef.current = touches`. -/
def handleTouchMove (hypot : ℚ → ℚ → ℚ) (vw vh : ℚ) (state : String)
    (touches : List Point) (s : TouchState) (sig : Signals) : TouchState × Signals :=
  -- 1. Single Finger Interaction
  let s1 : TouchState :=
    if touches.length = 1 ∧ s.lastTouch.length = 1 then
      if 2 < |(pt touches 0).x - (pt s.lastTouch 0).x| ∨
         2 < |(pt touches 0).y - (pt s.lastTouch 0).y| then
        { s with isDragging := true }
      else s
    else s
  let sig1 : Signals :=
    if touches.length = 1 ∧ s.lastTouch.length = 1 then
      let dx := (pt touches 0).x - (pt s.lastTouch 0).x
      let dy := (pt touches 0).y - (pt s.lastTouch 0).y
      let sigMode : Signals :=
        if state = "FORMED" then
          let rb := max (min (sig.rotationBoost - dx * 0.5 * 0.05) 3.0) (-3.0)
          { sig with rotationBoost := rb }
        else
          let po : Point := ⟨sig.panOffset.x + dx * 0.05, sig.panOffset.y - dy * 0.05⟩
          { sig with panOffset := po }
      { sigMode with pointer := ⟨(pt touches 0).x / vw, (pt touches 0).y / vh⟩ }
    else sig
  -- 2. Pinch Zoom
  let s2 : TouchState :=
    if touches.length = 2 ∧ s.lastTouch.length = 2 then
      match s.lastDist with
      | some _ =>
          let dist := hypot ((pt touches 0).x - (pt touches 1).x)
                            ((pt touches 0).y - (pt touches 1).y)
          { s1 with isDragging := true, lastDist := some dist }
      | none => s1
    else s1
  let sig2 : Signals :=
    if touches.length = 2 ∧ s.lastTouch.length = 2 then
      match s.lastDist with
      | some lastDist =>
          let dist := hypot ((pt touches 0).x - (pt touches 1).x)
                            ((pt touches 0).y - (pt touches 1).y)
          let deltaDist := dist - lastDist
          let zo := max (-20) (min (sig1.zoomOffset - deltaDist * 0.05) 40)
          { sig1 with zoomOffset := zo }
      | none => sig1
    else sig1
  ({ s2 with lastTouch := touches }, sig2)

/-- Handler `handleTouchEnd` (lines 118-136): emits a tap (`setClickTrigger(now)`)
when the drag flag is clear, less than `TAP_TIMEOUT` ms elapsed since the
last touch-start, and the last recorded touch list has exactly one point;
clears the stored pinch distance once no touches remain.  `touches` is
`e.touches`, the points still on the screen after the release. -/
def handleTouchEnd (now : ℚ) (touches : List Point)
    (s : TouchState) (sig : Signals) : TouchState × Signals :=
  let timeSinceStart := now - s.touchStartTime
  let sig1 : Signals :=
    if s.isDragging = false ∧ timeSinceStart < TAP_TIMEOUT ∧ s.lastTouch.length = 1 then
      { sig with clickTrigger := some now }
    else sig
  let s1 : TouchState :=
    if touches.length = 0 then { s with lastDist := none } else s
  (s1, sig1)

/-- One browser touch event delivered to the component: its kind, the
current `e.touches` list and (for the handlers that read `Date.now()`)
the clock value at delivery. -/
inductive TEvent where
  | start (now : ℚ) (touches : List Point)
  | move (touches : List Point)
  | stop (now : ℚ) (touches : List Point)
deriving DecidableEq, Repr

/-- Touch list carried by an event (`e.touches`). -/
def TEvent.touches : TEvent → List Point
  | .start _ ts => ts
  | .move ts => ts
  | .stop _ ts => ts

/-- Whether an event is a `touchstart`. -/
def TEvent.isStart : TEvent → Bool
  | .start _ _ => true
  | _ => false

/-- Dispatch of one event to the matching handler. -/
def stepEvent (hypot : ℚ → ℚ → ℚ) (vw vh : ℚ) (state : String)
    (p : TouchState × Signals) : TEvent → TouchState × Signals
  | .start now ts => handleTouchStart hypot vw vh now ts p.1 p.2
  | .move ts => handleTouchMove hypot vw vh state ts p.1 p.2
  | .stop now ts => handleTouchEnd now ts p.1 p.2

/-- Runs a sequence of touch events through the component. -/
def runEvents (hypot : ℚ → ℚ → ℚ) (vw vh : ℚ) (state : String)
    (p : TouchState × Signals) (evs : List TEvent) : TouchState × Signals :=
  evs.foldl (stepEvent hypot vw vh state) p

/-- Initial ref values (lines 18-22): empty touch list, no pinch
distance, clock zero, no start position, not dragging. -/
def initState : TouchState := ⟨[], none, 0, none, false⟩

/-- Accumulators before any interaction. -/
def initSignals : Signals := ⟨0, ⟨0, 0⟩, 0, ⟨0, 0⟩, none⟩

/-- Clamp as written in the source, `Math.max(Math.min(x, hi), lo)`. -/
def clamp (x lo hi : ℚ) : ℚ := max (min x hi) lo

/-! ### TreeCreator: share-link generation and query-parameter loading -/

/-- Tree configuration (`treeConfig` in `TreeCreator.tsx`): three colour
strings and an optional photo URL. -/
structure TreeConfig where
  primaryColor : String
  accentColor : String
  lightColor : String
  photoUrl : Option String
deriving DecidableEq, Repr

/-- Whether a character is a hexadecimal digit. -/
def hexDigit (c : Char) : Bool :=
  (('0' ≤ c && c ≤ '9') || ('a' ≤ c && c ≤ 'f') || ('A' ≤ c && c ≤ 'F'))

/-- JavaScript `s.replace('#', '')` with a string pattern removes only
the first occurrence of `'#'`. -/
def stripHash : List Char → List Char
  | [] => []
  | c :: cs => if c = '#' then cs else c :: stripHash cs

/-- Query string built by `generateShareLink` (line 66),
`?c1=hex&c2=hex&c3=hex`; this is the `window.location.search` value seen
when the produced URL is opened. -/
def shareSearch (cfg : TreeConfig) : String :=
  "?c1=" ++ String.mk (stripHash cfg.primaryColor.data) ++
  "&c2=" ++ String.mk (stripHash cfg.accentColor.data) ++
  "&c3=" ++ String.mk (stripHash cfg.lightColor.data)

/-- Function `generateShareLink` (lines 57-69): the produced URL,
`origin + pathname + "?c1=" + c1 + "&c2=" + c2 + "&c3=" + c3`. -/
def generateShareLink (origin pathname : String) (cfg : TreeConfig) : String :=
  origin ++ pathname ++ shareSearch cfg

/-- Query component of a URL: everything from the first `'?'` on, empty
when no `'?'` occurs.  Faithful to the browser for URLs containing no
`'#'` (a fragment would end the query). -/
def searchPart : List Char → List Char
  | [] => []
  | c :: cs => if c = '?' then c :: cs else searchPart cs

/-- Value of `window.location.search` after navigating to `url`. -/
def locationSearch (url : String) : String := String.mk (searchPart url.data)

/-- Model of how `URLSearchParams` strips one leading `'?'` before splitting. -/
def stripLeadQ : List Char → List Char
  | [] => []
  | c :: cs => if c = '?' then cs else c :: cs

/-- Splits a query string on `'&'` into parameter segments. -/
def splitSegs : List Char → List (List Char)
  | [] => [[]]
  | c :: cs =>
    if c = '&' then [] :: splitSegs cs
    else
      match splitSegs cs with
      | [] => [[c]]
      | seg :: segs => (c :: seg) :: segs

/-- Splits one `key=value` segment at the first `'='`; a segment without
`'='` is a key with empty value. -/
def splitKV : List Char → List Char × List Char
  | [] => ([], [])
  | c :: cs =>
    if c = '=' then ([], cs)
    else
      let r := splitKV cs
      (c :: r.1, r.2)

/-- Model of `new URLSearchParams(search).get(key)`: value of the first segment
whose key matches, `none` when the parameter is absent.  Modelled without
percent-decoding, which is faithful for query strings free of `'%'` and
`'+'` — the shape produced by `generateShareLink` from hex colours. -/
def getParam (search : String) (key : String) : Option String :=
  ((splitSegs (stripLeadQ search.data)).filterMap fun seg =>
    if (splitKV seg).1 = key.data then some (String.mk (splitKV seg).2) else none).head?

/-- The `useEffect` of `TreeCreator` (lines 15-29): reads `c1`, `c2`,
`c3` from the query string and, when all three are present and non-empty
(JavaScript truthiness of `c1 && c2 && c3`), replaces the configuration
with the three colours prefixed by `'#'` and no `photoUrl`; otherwise the
configuration is left unchanged. -/
def loadFromParams (search : String) (cfg : TreeConfig) : TreeConfig :=
  match getParam search "c1", getParam search "c2", getParam search "c3" with
  | some c1, some c2, some c3 =>
      if c1 ≠ "" ∧ c2 ≠ "" ∧ c3 ≠ "" then
        { primaryColor := "#" ++ c1, accentColor := "#" ++ c2,
          lightColor := "#" ++ c3, photoUrl := none }
      else cfg
  | _, _, _ => cfg

/-! ### Helper lemmas on the touch handlers -/

/-- Rotation update of the single-finger branch in mode `"FORMED"`. -/
theorem move_single_rotation (hypot : ℚ → ℚ → ℚ) (vw vh : ℚ)
    (t p : Point) (s : TouchState) (sig : Signals) (hl : s.lastTouch = [p]) :
    (handleTouchMove hypot vw vh "FORMED" [t] s sig).2.rotationBoost =
      max (min (sig.rotationBoost - (t.x - p.x) * 0.5 * 0.05) 3.0) (-3.0) := by
  simp [handleTouchMove, hl, pt]

/-- Pan update of the single-finger branch in any mode other than
`"FORMED"`. -/
theorem move_single_pan (hypot : ℚ → ℚ → ℚ) (vw vh : ℚ) (state : String)
    (t p : Point) (s : TouchState) (sig : Signals)
    (hst : state ≠ "FORMED") (hl : s.lastTouch = [p]) :
    (handleTouchMove hypot vw vh state [t] s sig).2.panOffset =
      ⟨sig.panOffset.x + (t.x - p.x) * 0.05, sig.panOffset.y - (t.y - p.y) * 0.05⟩ := by
  simp [handleTouchMove, hl, hst, pt]

/-- Pointer update of the single-finger branch, in every mode. -/
theorem move_single_pointer (hypot : ℚ → ℚ → ℚ) (vw vh : ℚ) (state : String)
    (t p : Point) (s : TouchState) (sig : Signals) (hl : s.lastTouch = [p]) :
    (handleTouchMove hypot vw vh state [t] s sig).2.pointer =
      ⟨t.x / vw, t.y / vh⟩ := by
  simp [handleTouchMove, hl, pt]

/-- Zoom update of the pinch branch. -/
theorem move_pinch_zoom (hypot : ℚ → ℚ → ℚ) (vw vh : ℚ) (state : String)
    (t0 t1 u0 u1 : Point) (d : ℚ) (s : TouchState) (sig : Signals)
    (hl : s.lastTouch = [u0, u1]) (hd : s.lastDist = some d) :
    (handleTouchMove hypot vw vh state [t0, t1] s sig).2.zoomOffset =
      max (-20) (min (sig.zoomOffset -
        (hypot (t0.x - t1.x) (t0.y - t1.y) - d) * 0.05) 40) := by
  simp [handleTouchMove, hl, hd, pt]

/-- Lemma: `handleTouchMove` always records the current touch list. -/
theorem move_lastTouch (hypot : ℚ → ℚ → ℚ) (vw vh : ℚ) (state : String)
    (touches : List Point) (s : TouchState) (sig : Signals) :
    (handleTouchMove hypot vw vh state touches s sig).1.lastTouch = touches := by
  simp only [handleTouchMove]

/-- Lemma: `handleTouchMove` never clears the drag flag. -/
theorem move_preserves_dragging (hypot : ℚ → ℚ → ℚ) (vw vh : ℚ) (state : String)
    (touches : List Point) (s : TouchState) (sig : Signals)
    (h : s.isDragging = true) :
    (handleTouchMove hypot vw vh state touches s sig).1.isDragging = true := by
  simp only [handleTouchMove]
  repeat' split
  all_goals simp_all

/-- Lemma: `handleTouchEnd` never writes the drag flag. -/
theorem end_preserves_dragging (now : ℚ) (touches : List Point)
    (s : TouchState) (sig : Signals) :
    (handleTouchEnd now touches s sig).1.isDragging = s.isDragging := by
  simp only [handleTouchEnd]
  split <;> rfl

/-- The tap signal written by `handleTouchEnd`, as a conditional. -/
theorem end_clickTrigger (now : ℚ) (touches : List Point)
    (s : TouchState) (sig : Signals) :
    (handleTouchEnd now touches s sig).2.clickTrigger =
      if s.isDragging = false ∧ now - s.touchStartTime < TAP_TIMEOUT ∧
          s.lastTouch.length = 1 then
        some now
      else sig.clickTrigger := by
  simp only [handleTouchEnd]
  split <;> rfl

/-- A true drag flag survives any sequence of move and end events. -/
theorem dragging_monotone_aux (hypot : ℚ → ℚ → ℚ) (vw vh : ℚ) (state : String)
    (evs : List TEvent) :
    ∀ p : TouchState × Signals, (∀ e ∈ evs, e.isStart = false) →
      p.1.isDragging = true →
      (runEvents hypot vw vh state p evs).1.isDragging = true := by
  induction evs with
  | nil => intro p _ h; simpa [runEvents] using h
  | cons e evs ih =>
    intro p hne h
    show (runEvents hypot vw vh state (stepEvent hypot vw vh state p e) evs).1.isDragging = true
    refine ih _ (fun x hx => hne x (List.mem_cons_of_mem _ hx)) ?_
    cases e with
    | start now ts =>
        have hs := hne _ (List.mem_cons_self _ _)
        simp [TEvent.isStart] at hs
    | move ts => exact move_preserves_dragging hypot vw vh state ts p.1 p.2 h
    | stop now ts =>
        show (handleTouchEnd now ts p.1 p.2).1.isDragging = true
        rw [end_preserves_dragging]
        exact h

/-! ### Claim theorems -/

/-- C1, counterexample: the tap condition does not require that the
session never had more than one active point.  In the session below a
second finger lands (sample with two points) and lifts again without a
two-finger move, then the remaining finger lifts: `handleTouchEnd` still
emits a tap (`clickTrigger = some 40`), because it only checks the point
count of the most recent start/move sample.  The second conjunct records
the per-sample point counts of the session, which include `2`. -/
theorem tapEmitted_despite_twoFinger_episode :
    ((runEvents hypotX 1000 1000 "FORMED" (initState, initSignals)
        [TEvent.start 0 [⟨0, 0⟩], TEvent.start 10 [⟨0, 0⟩, ⟨100, 0⟩],
         TEvent.stop 20 [⟨0, 0⟩], TEvent.move [⟨0, 0⟩],
         TEvent.stop 40 []]).2.clickTrigger = some 40) ∧
    (([TEvent.start 0 [⟨0, 0⟩], TEvent.start 10 [⟨0, 0⟩, ⟨100, 0⟩],
       TEvent.stop 20 [⟨0, 0⟩], TEvent.move [⟨0, 0⟩],
       TEvent.stop 40 []].map fun e => e.touches.length) = [1, 2, 1, 1, 0]) := by
  refine ⟨?_, by decide⟩
  norm_num [runEvents, stepEvent, handleTouchStart, handleTouchMove, handleTouchEnd,
    pt, hypotX, initState, initSignals, TAP_TIMEOUT]

/-- C1 (amended): at a touch-end event, a tap signal (`clickTrigger` set
to the release timestamp) is emitted if and only if `isDragging` is
false, the elapsed time since the most recent touch-start is strictly
below `TAP_TIMEOUT = 300`, and the most recent recorded touch sample has
exactly one point — not: the session never had more than one point. -/
theorem tap_iff_code_condition (now : ℚ) (touches : List Point)
    (s : TouchState) (sig : Signals) (h : sig.clickTrigger ≠ some now) :
    (handleTouchEnd now touches s sig).2.clickTrigger = some now ↔
      (s.isDragging = false ∧ now - s.touchStartTime < TAP_TIMEOUT ∧
        s.lastTouch.length = 1) := by
  rw [end_clickTrigger]
  split
  next h1 => exact iff_of_true rfl h1
  next h1 => exact iff_of_false h h1

/-- Witness for `tap_iff_code_condition` at a concrete release. -/
theorem tap_iff_code_condition_witness :
    initSignals.clickTrigger ≠ some 40 ∧
    ((handleTouchEnd 40 [] ⟨[⟨0, 0⟩], none, 10, none, false⟩ initSignals).2.clickTrigger
        = some 40 ↔
      ((⟨[⟨0, 0⟩], none, 10, none, false⟩ : TouchState).isDragging = false ∧
        40 - (⟨[⟨0, 0⟩], none, 10, none, false⟩ : TouchState).touchStartTime < TAP_TIMEOUT ∧
        (⟨[⟨0, 0⟩], none, 10, none, false⟩ : TouchState).lastTouch.length = 1)) :=
  ⟨by decide, tap_iff_code_condition 40 [] ⟨[⟨0, 0⟩], none, 10, none, false⟩ initSignals (by decide)⟩

/-- C2, counterexample: `isDragging` becomes true after a one-finger drag
move, but the `touchstart` fired when a second finger lands mid-session
resets it to false, before the session ends (no sample in the sequence
has zero touches, so the fingers never all lifted). -/
theorem isDragging_reset_by_midsession_touchstart :
    ((runEvents hypotX 1000 1000 "FORMED" (initState, initSignals)
        [TEvent.start 0 [⟨0, 0⟩], TEvent.move [⟨10, 0⟩]]).1.isDragging = true) ∧
    ((runEvents hypotX 1000 1000 "FORMED" (initState, initSignals)
        [TEvent.start 0 [⟨0, 0⟩], TEvent.move [⟨10, 0⟩],
         TEvent.start 5 [⟨10, 0⟩, ⟨60, 0⟩]]).1.isDragging = false) ∧
    (([TEvent.start 0 [⟨0, 0⟩], TEvent.move [⟨10, 0⟩],
       TEvent.start 5 [⟨10, 0⟩, ⟨60, 0⟩]].all fun e => !e.touches.isEmpty) = true) := by
  refine ⟨?_, ?_, by decide⟩ <;>
    norm_num [runEvents, stepEvent, handleTouchStart, handleTouchMove, handleTouchEnd,
      pt, hypotX, initState, initSignals, TAP_TIMEOUT]

/-- C2 (amended): once `isDragging` is true it stays true across every
sequence of touch-move and touch-end events; only a touch-start event
(in particular the one fired when an additional finger lands
mid-session) resets it to false. -/
theorem isDragging_monotone_without_touchstart (hypot : ℚ → ℚ → ℚ)
    (vw vh : ℚ) (state : String) (evs : List TEvent)
    (s : TouchState) (sig : Signals)
    (hne : ∀ e ∈ evs, e.isStart = false) (h : s.isDragging = true) :
    (runEvents hypot vw vh state (s, sig) evs).1.isDragging = true :=
  dragging_monotone_aux hypot vw vh state evs (s, sig) hne h

/-- Witness for `isDragging_monotone_without_touchstart` on a concrete
move-and-release tail of a session. -/
theorem isDragging_monotone_without_touchstart_witness :
    (∀ e ∈ [TEvent.move [⟨5, 0⟩], TEvent.stop 99 []], e.isStart = false) ∧
    (⟨[⟨0, 0⟩], none, 0, none, true⟩ : TouchState).isDragging = true ∧
    (runEvents hypotX 1000 1000 "FORMED"
      (⟨[⟨0, 0⟩], none, 0, none, true⟩, initSignals)
      [TEvent.move [⟨5, 0⟩], TEvent.stop 99 []]).1.isDragging = true :=
  ⟨by decide, rfl,
    isDragging_monotone_without_touchstart hypotX 1000 1000 "FORMED"
      [TEvent.move [⟨5, 0⟩], TEvent.stop 99 []]
      ⟨[⟨0, 0⟩], none, 0, none, true⟩ initSignals (by decide) rfl⟩

/-- C3: after every rotation update (a single-finger move in mode
`"FORMED"`) the rotation accumulator lies in `[-3, 3]`, and after every
zoom update (a two-finger move with a stored pinch distance) the zoom
accumulator lies in `[-20, 40]`, for every input delta of any magnitude
and every prior accumulator value. -/
theorem accumulators_stay_clamped :
    (∀ (hypot : ℚ → ℚ → ℚ) (vw vh : ℚ) (t p : Point) (s : TouchState)
        (sig : Signals), s.lastTouch = [p] →
      -3 ≤ (handleTouchMove hypot vw vh "FORMED" [t] s sig).2.rotationBoost ∧
        (handleTouchMove hypot vw vh "FORMED" [t] s sig).2.rotationBoost ≤ 3) ∧
    (∀ (hypot : ℚ → ℚ → ℚ) (vw vh : ℚ) (state : String) (t0 t1 u0 u1 : Point)
        (d : ℚ) (s : TouchState) (sig : Signals),
      s.lastTouch = [u0, u1] → s.lastDist = some d →
      -20 ≤ (handleTouchMove hypot vw vh state [t0, t1] s sig).2.zoomOffset ∧
        (handleTouchMove hypot vw vh state [t0, t1] s sig).2.zoomOffset ≤ 40) := by
  constructor
  · intro hypot vw vh t p s sig hl
    rw [move_single_rotation hypot vw vh t p s sig hl]
    constructor
    · exact le_trans (by norm_num) (le_max_right _ _)
    · exact max_le (le_trans (min_le_right _ _) (by norm_num)) (by norm_num)
  · intro hypot vw vh state t0 t1 u0 u1 d s sig hl hd
    rw [move_pinch_zoom hypot vw vh state t0 t1 u0 u1 d s sig hl hd]
    exact ⟨le_max_left _ _, max_le (by norm_num) (min_le_right _ _)⟩

/-- Witness for `accumulators_stay_clamped` at a concrete huge delta. -/
theorem accumulators_stay_clamped_witness :
    ((⟨[⟨0, 0⟩], none, 0, none, false⟩ : TouchState).lastTouch = [⟨0, 0⟩] ∧
      -3 ≤ (handleTouchMove hypotX 1000 1000 "FORMED" [⟨100000, 0⟩]
              ⟨[⟨0, 0⟩], none, 0, none, false⟩ initSignals).2.rotationBoost ∧
      (handleTouchMove hypotX 1000 1000 "FORMED" [⟨100000, 0⟩]
              ⟨[⟨0, 0⟩], none, 0, none, false⟩ initSignals).2.rotationBoost ≤ 3) ∧
    ((⟨[⟨0, 0⟩, ⟨10, 0⟩], some 10, 0, none, false⟩ : TouchState).lastTouch
        = [⟨0, 0⟩, ⟨10, 0⟩] ∧
      (⟨[⟨0, 0⟩, ⟨10, 0⟩], some 10, 0, none, false⟩ : TouchState).lastDist = some 10 ∧
      -20 ≤ (handleTouchMove hypotX 1000 1000 "FORMED" [⟨0, 0⟩, ⟨99999, 0⟩]
              ⟨[⟨0, 0⟩, ⟨10, 0⟩], some 10, 0, none, false⟩ initSignals).2.zoomOffset ∧
      (handleTouchMove hypotX 1000 1000 "FORMED" [⟨0, 0⟩, ⟨99999, 0⟩]
              ⟨[⟨0, 0⟩, ⟨10, 0⟩], some 10, 0, none, false⟩ initSignals).2.zoomOffset ≤ 40) :=
  ⟨⟨rfl, accumulators_stay_clamped.1 hypotX 1000 1000 ⟨100000, 0⟩ ⟨0, 0⟩
      ⟨[⟨0, 0⟩], none, 0, none, false⟩ initSignals rfl⟩,
   ⟨rfl, rfl, accumulators_stay_clamped.2 hypotX 1000 1000 "FORMED"
      ⟨0, 0⟩ ⟨99999, 0⟩ ⟨0, 0⟩ ⟨10, 0⟩ 10
      ⟨[⟨0, 0⟩, ⟨10, 0⟩], some 10, 0, none, false⟩ initSignals rfl rfl⟩⟩

/-- C4: in mode `"FORMED"`, for every single-finger move sample where the
current and previous samples each have exactly one point, the new
rotation accumulator equals
`clamp (previous - dx * 0.5 * 0.05) (-3.0) 3.0`, where `dx` is the
horizontal delta between the two samples. -/
theorem formed_rotation_update (hypot : ℚ → ℚ → ℚ) (vw vh : ℚ)
    (t p : Point) (s : TouchState) (sig : Signals) (hl : s.lastTouch = [p]) :
    (handleTouchMove hypot vw vh "FORMED" [t] s sig).2.rotationBoost =
      clamp (sig.rotationBoost - (t.x - p.x) * 0.5 * 0.05) (-3.0) 3.0 := by
  rw [move_single_rotation hypot vw vh t p s sig hl]
  rfl

/-- Witness for `formed_rotation_update`: a 30 px swipe from a zeroed
accumulator gives `clamp (-0.75)` = `-0.75`. -/
theorem formed_rotation_update_witness :
    (⟨[⟨0, 0⟩], none, 0, none, false⟩ : TouchState).lastTouch = [⟨0, 0⟩] ∧
    (handleTouchMove hypotX 1000 1000 "FORMED" [⟨30, 0⟩]
        ⟨[⟨0, 0⟩], none, 0, none, false⟩ initSignals).2.rotationBoost =
      clamp (initSignals.rotationBoost - ((⟨30, 0⟩ : Point).x - (⟨0, 0⟩ : Point).x)
        * 0.5 * 0.05) (-3.0) 3.0 :=
  ⟨rfl, formed_rotation_update hypotX 1000 1000 ⟨30, 0⟩ ⟨0, 0⟩
      ⟨[⟨0, 0⟩], none, 0, none, false⟩ initSignals rfl⟩

/-- C5: on a two-finger move with a stored pinch distance and the zoom
accumulator inside its invariant range, increasing separation
(`deltaDist > 0`) makes the accumulator strictly smaller unless it is
pinned at `-20`, decreasing separation makes it strictly larger unless
pinned at `40`; and a separation change from 100 px to 140 px subtracts
exactly `40 * 0.05 = 2` before clamping. -/
theorem pinch_zoom_monotone :
    (∀ (hypot : ℚ → ℚ → ℚ) (vw vh : ℚ) (state : String) (t0 t1 u0 u1 : Point)
        (d : ℚ) (s : TouchState) (sig : Signals),
      s.lastTouch = [u0, u1] → s.lastDist = some d → -20 ≤ sig.zoomOffset →
      d < hypot (t0.x - t1.x) (t0.y - t1.y) →
      ((handleTouchMove hypot vw vh state [t0, t1] s sig).2.zoomOffset < sig.zoomOffset ∨
        ((handleTouchMove hypot vw vh state [t0, t1] s sig).2.zoomOffset = -20 ∧
          sig.zoomOffset = -20))) ∧
    (∀ (hypot : ℚ → ℚ → ℚ) (vw vh : ℚ) (state : String) (t0 t1 u0 u1 : Point)
        (d : ℚ) (s : TouchState) (sig : Signals),
      s.lastTouch = [u0, u1] → s.lastDist = some d → sig.zoomOffset ≤ 40 →
      hypot (t0.x - t1.x) (t0.y - t1.y) < d →
      (sig.zoomOffset < (handleTouchMove hypot vw vh state [t0, t1] s sig).2.zoomOffset ∨
        ((handleTouchMove hypot vw vh state [t0, t1] s sig).2.zoomOffset = 40 ∧
          sig.zoomOffset = 40))) ∧
    (∀ (vw vh : ℚ) (state : String) (s : TouchState) (sig : Signals),
      s.lastTouch = [⟨0, 0⟩, ⟨100, 0⟩] → s.lastDist = some 100 →
      (handleTouchMove hypotX vw vh state [⟨0, 0⟩, ⟨140, 0⟩] s sig).2.zoomOffset =
        clamp (sig.zoomOffset - 2) (-20) 40) := by
  refine ⟨?_, ?_, ?_⟩
  · intro hypot vw vh state t0 t1 u0 u1 d s sig hl hd hz hlt
    rw [move_pinch_zoom hypot vw vh state t0 t1 u0 u1 d s sig hl hd]
    have hp : 0 < (hypot (t0.x - t1.x) (t0.y - t1.y) - d) * 0.05 :=
      mul_pos (by linarith) (by norm_num)
    rcases lt_or_eq_of_le hz with h | h
    · left
      apply max_lt (by linarith)
      exact lt_of_le_of_lt (min_le_left _ _) (by linarith)
    · right
      refine ⟨?_, h.symm⟩
      rw [min_eq_left (by linarith), max_eq_left (by linarith)]
  · intro hypot vw vh state t0 t1 u0 u1 d s sig hl hd hz hlt
    rw [move_pinch_zoom hypot vw vh state t0 t1 u0 u1 d s sig hl hd]
    have hp : (hypot (t0.x - t1.x) (t0.y - t1.y) - d) * 0.05 < 0 :=
      mul_neg_of_neg_of_pos (by linarith) (by norm_num)
    rcases lt_or_eq_of_le hz with h | h
    · left
      exact lt_of_lt_of_le (lt_min (by linarith) (by linarith)) (le_max_right _ _)
    · right
      refine ⟨?_, h⟩
      rw [min_eq_right (by linarith), max_eq_right (by norm_num)]
  · intro vw vh state s sig hl hd
    rw [move_pinch_zoom hypotX vw vh state ⟨0, 0⟩ ⟨140, 0⟩ ⟨0, 0⟩ ⟨100, 0⟩ 100 s sig hl hd]
    norm_num [hypotX, clamp, max_comm]

/-- Witness for `pinch_zoom_monotone`: concrete pinch-out from distance
100 to 140 at zoom accumulator 0, and the concrete scenario equation. -/
theorem pinch_zoom_monotone_witness :
    ((⟨[⟨0, 0⟩, ⟨100, 0⟩], some 100, 0, none, false⟩ : TouchState).lastTouch
        = [⟨0, 0⟩, ⟨100, 0⟩] ∧
      (⟨[⟨0, 0⟩, ⟨100, 0⟩], some 100, 0, none, false⟩ : TouchState).lastDist = some 100 ∧
      -20 ≤ initSignals.zoomOffset ∧
      (100 : ℚ) < hypotX ((⟨0, 0⟩ : Point).x - (⟨140, 0⟩ : Point).x)
        ((⟨0, 0⟩ : Point).y - (⟨140, 0⟩ : Point).y) ∧
      ((handleTouchMove hypotX 1000 1000 "FORMED" [⟨0, 0⟩, ⟨140, 0⟩]
          ⟨[⟨0, 0⟩, ⟨100, 0⟩], some 100, 0, none, false⟩ initSignals).2.zoomOffset
          < initSignals.zoomOffset ∨
        ((handleTouchMove hypotX 1000 1000 "FORMED" [⟨0, 0⟩, ⟨140, 0⟩]
          ⟨[⟨0, 0⟩, ⟨100, 0⟩], some 100, 0, none, false⟩ initSignals).2.zoomOffset = -20 ∧
          initSignals.zoomOffset = -20))) ∧
    ((handleTouchMove hypotX 1000 1000 "FORMED" [⟨0, 0⟩, ⟨140, 0⟩]
        ⟨[⟨0, 0⟩, ⟨100, 0⟩], some 100, 0, none, false⟩ initSignals).2.zoomOffset =
      clamp (initSignals.zoomOffset - 2) (-20) 40) :=
  ⟨⟨rfl, rfl, by norm_num [initSignals], by norm_num [hypotX],
      pinch_zoom_monotone.1 hypotX 1000 1000 "FORMED" ⟨0, 0⟩ ⟨140, 0⟩ ⟨0, 0⟩ ⟨100, 0⟩ 100
        ⟨[⟨0, 0⟩, ⟨100, 0⟩], some 100, 0, none, false⟩ initSignals rfl rfl
        (by norm_num [initSignals]) (by norm_num [hypotX])⟩,
    pinch_zoom_monotone.2.2 1000 1000 "FORMED"
      ⟨[⟨0, 0⟩, ⟨100, 0⟩], some 100, 0, none, false⟩ initSignals rfl rfl⟩

/-- C6: in any mode other than `"FORMED"`, a single-finger move adds
`(dx * 0.05, -dy * 0.05)` to the pan accumulator; and the concrete
scenario — viewport 1000 by 1000, finger down at (500, 500), one move to
(520, 480), lift at 150 ms — yields `isDragging = true`, an accumulated
pan offset of `(1, 1)` and no tap. -/
theorem chaos_pan_update :
    (∀ (hypot : ℚ → ℚ → ℚ) (vw vh : ℚ) (state : String) (t p : Point)
        (s : TouchState) (sig : Signals), state ≠ "FORMED" → s.lastTouch = [p] →
      (handleTouchMove hypot vw vh state [t] s sig).2.panOffset =
        ⟨sig.panOffset.x + (t.x - p.x) * 0.05, sig.panOffset.y - (t.y - p.y) * 0.05⟩) ∧
    ((runEvents hypotX 1000 1000 "CHAOS" (initState, initSignals)
        [TEvent.start 0 [⟨500, 500⟩], TEvent.move [⟨520, 480⟩],
         TEvent.stop 150 []]).1.isDragging = true ∧
      (runEvents hypotX 1000 1000 "CHAOS" (initState, initSignals)
        [TEvent.start 0 [⟨500, 500⟩], TEvent.move [⟨520, 480⟩],
         TEvent.stop 150 []]).2.panOffset = ⟨1, 1⟩ ∧
      (runEvents hypotX 1000 1000 "CHAOS" (initState, initSignals)
        [TEvent.start 0 [⟨500, 500⟩], TEvent.move [⟨520, 480⟩],
         TEvent.stop 150 []]).2.clickTrigger = none) := by
  constructor
  · intro hypot vw vh state t p s sig hst hl
    exact move_single_pan hypot vw vh state t p s sig hst hl
  · refine ⟨?_, ?_, ?_⟩ <;>
      (norm_num [runEvents, stepEvent, handleTouchStart, handleTouchMove, handleTouchEnd,
        pt, hypotX, initState, initSignals, TAP_TIMEOUT] <;> simp)

/-- Witness for `chaos_pan_update` on the scenario's move sample. -/
theorem chaos_pan_update_witness :
    ("CHAOS" ≠ "FORMED") ∧
    ((⟨[⟨500, 500⟩], none, 0, some ⟨500, 500⟩, false⟩ : TouchState).lastTouch
        = [⟨500, 500⟩]) ∧
    (handleTouchMove hypotX 1000 1000 "CHAOS" [⟨520, 480⟩]
        ⟨[⟨500, 500⟩], none, 0, some ⟨500, 500⟩, false⟩ initSignals).2.panOffset =
      ⟨initSignals.panOffset.x + ((⟨520, 480⟩ : Point).x - (⟨500, 500⟩ : Point).x) * 0.05,
       initSignals.panOffset.y - ((⟨520, 480⟩ : Point).y - (⟨500, 500⟩ : Point).y) * 0.05⟩ :=
  ⟨by decide, rfl,
    chaos_pan_update.1 hypotX 1000 1000 "CHAOS" ⟨520, 480⟩ ⟨500, 500⟩
      ⟨[⟨500, 500⟩], none, 0, some ⟨500, 500⟩, false⟩ initSignals (by decide) rfl⟩

/-- C7: a move sample whose point count differs from the previous
sample's count fires neither gesture branch: the rotation, pan and zoom
accumulators are all left unchanged (the in-flight delta is discarded). -/
theorem fingercount_change_no_motion (hypot : ℚ → ℚ → ℚ) (vw vh : ℚ)
    (state : String) (touches : List Point) (s : TouchState) (sig : Signals)
    (h : touches.length ≠ s.lastTouch.length) :
    (handleTouchMove hypot vw vh state touches s sig).2.rotationBoost = sig.rotationBoost ∧
    (handleTouchMove hypot vw vh state touches s sig).2.panOffset = sig.panOffset ∧
    (handleTouchMove hypot vw vh state touches s sig).2.zoomOffset = sig.zoomOffset := by
  have h1 : ¬(touches.length = 1 ∧ s.lastTouch.length = 1) :=
    fun hc => h (hc.1.trans hc.2.symm)
  have h2 : ¬(touches.length = 2 ∧ s.lastTouch.length = 2) :=
    fun hc => h (hc.1.trans hc.2.symm)
  simp [handleTouchMove, h1, h2]

/-- Witness for `fingercount_change_no_motion` on a 1 to 2 transition. -/
theorem fingercount_change_no_motion_witness :
    ([(⟨0, 0⟩ : Point), ⟨50, 0⟩].length ≠
      (⟨[⟨0, 0⟩], none, 0, none, false⟩ : TouchState).lastTouch.length) ∧
    (handleTouchMove hypotX 1000 1000 "FORMED" [⟨0, 0⟩, ⟨50, 0⟩]
        ⟨[⟨0, 0⟩], none, 0, none, false⟩ initSignals).2.rotationBoost
      = initSignals.rotationBoost ∧
    (handleTouchMove hypotX 1000 1000 "FORMED" [⟨0, 0⟩, ⟨50, 0⟩]
        ⟨[⟨0, 0⟩], none, 0, none, false⟩ initSignals).2.panOffset
      = initSignals.panOffset ∧
    (handleTouchMove hypotX 1000 1000 "FORMED" [⟨0, 0⟩, ⟨50, 0⟩]
        ⟨[⟨0, 0⟩], none, 0, none, false⟩ initSignals).2.zoomOffset
      = initSignals.zoomOffset :=
  ⟨by decide,
    (fingercount_change_no_motion hypotX 1000 1000 "FORMED" [⟨0, 0⟩, ⟨50, 0⟩]
      ⟨[⟨0, 0⟩], none, 0, none, false⟩ initSignals (by decide)).1,
    (fingercount_change_no_motion hypotX 1000 1000 "FORMED" [⟨0, 0⟩, ⟨50, 0⟩]
      ⟨[⟨0, 0⟩], none, 0, none, false⟩ initSignals (by decide)).2.1,
    (fingercount_change_no_motion hypotX 1000 1000 "FORMED" [⟨0, 0⟩, ⟨50, 0⟩]
      ⟨[⟨0, 0⟩], none, 0, none, false⟩ initSignals (by decide)).2.2⟩

/-- C8, counterexample: a sample with three touch points is not processed
as a two-finger gesture of its first two points.  With a stored pinch
distance of 100 and the first two fingers now 140 apart, the full
three-point sample leaves the zoom accumulator unchanged (at 0), while
the same sample restricted to its first two points updates it to -2. -/
theorem three_touches_not_processed_as_pinch :
    ((handleTouchMove hypotX 1000 1000 "FORMED" [⟨0, 0⟩, ⟨140, 0⟩, ⟨7, 7⟩]
        ⟨[⟨0, 0⟩, ⟨100, 0⟩], some 100, 0, none, false⟩ initSignals).2.zoomOffset = 0) ∧
    ((handleTouchMove hypotX 1000 1000 "FORMED" ([⟨0, 0⟩, ⟨140, 0⟩, ⟨7, 7⟩].take 2)
        ⟨[⟨0, 0⟩, ⟨100, 0⟩], some 100, 0, none, false⟩ initSignals).2.zoomOffset = -2) := by
  constructor <;> norm_num [handleTouchMove, pt, hypotX, initSignals]

/-- C8 (amended): a move sample with more than two touch points raises no
error but is ignored for gesture purposes: no branch fires, the signals
are unchanged, and the state changes only by recording the new touch
list. -/
theorem extra_touches_ignored (hypot : ℚ → ℚ → ℚ) (vw vh : ℚ) (state : String)
    (touches : List Point) (s : TouchState) (sig : Signals)
    (h : 2 < touches.length) :
    handleTouchMove hypot vw vh state touches s sig =
      ({ s with lastTouch := touches }, sig) := by
  have h1 : ¬(touches.length = 1 ∧ s.lastTouch.length = 1) := fun hc => by omega
  have h2 : ¬(touches.length = 2 ∧ s.lastTouch.length = 2) := fun hc => by omega
  simp [handleTouchMove, h1, h2]

/-- Witness for `extra_touches_ignored` at a concrete three-point
sample. -/
theorem extra_touches_ignored_witness :
    (2 < [(⟨0, 0⟩ : Point), ⟨140, 0⟩, ⟨7, 7⟩].length) ∧
    handleTouchMove hypotX 1000 1000 "FORMED" [⟨0, 0⟩, ⟨140, 0⟩, ⟨7, 7⟩]
        ⟨[⟨0, 0⟩, ⟨100, 0⟩], some 100, 0, none, false⟩ initSignals =
      ({ (⟨[⟨0, 0⟩, ⟨100, 0⟩], some 100, 0, none, false⟩ : TouchState) with
          lastTouch := [⟨0, 0⟩, ⟨140, 0⟩, ⟨7, 7⟩] }, initSignals) :=
  ⟨by decide,
    extra_touches_ignored hypotX 1000 1000 "FORMED" [⟨0, 0⟩, ⟨140, 0⟩, ⟨7, 7⟩]
      ⟨[⟨0, 0⟩, ⟨100, 0⟩], some 100, 0, none, false⟩ initSignals (by decide)⟩

/-- C9: on every processed single-finger sample the emitted pointer is
the touch position divided componentwise by the viewport size (both on
move and on touch-start); it lies in the unit square whenever the touch
lies inside the viewport; and feeding the same touch point twice yields
the same pointer both times. -/
theorem pointer_normalized :
    (∀ (hypot : ℚ → ℚ → ℚ) (vw vh : ℚ) (state : String) (t p : Point)
        (s : TouchState) (sig : Signals), s.lastTouch = [p] →
      (handleTouchMove hypot vw vh state [t] s sig).2.pointer = ⟨t.x / vw, t.y / vh⟩) ∧
    (∀ (hypot : ℚ → ℚ → ℚ) (vw vh now : ℚ) (t : Point) (s : TouchState) (sig : Signals),
      (handleTouchStart hypot vw vh now [t] s sig).2.pointer = ⟨t.x / vw, t.y / vh⟩) ∧
    (∀ (hypot : ℚ → ℚ → ℚ) (vw vh : ℚ) (state : String) (t p : Point)
        (s : TouchState) (sig : Signals), s.lastTouch = [p] →
      0 < vw → 0 < vh → 0 ≤ t.x → t.x ≤ vw → 0 ≤ t.y → t.y ≤ vh →
      (0 ≤ (handleTouchMove hypot vw vh state [t] s sig).2.pointer.x ∧
        (handleTouchMove hypot vw vh state [t] s sig).2.pointer.x ≤ 1 ∧
        0 ≤ (handleTouchMove hypot vw vh state [t] s sig).2.pointer.y ∧
        (handleTouchMove hypot vw vh state [t] s sig).2.pointer.y ≤ 1)) ∧
    (∀ (hypot : ℚ → ℚ → ℚ) (vw vh : ℚ) (state : String) (t p : Point)
        (s : TouchState) (sig : Signals), s.lastTouch = [p] →
      (handleTouchMove hypot vw vh state [t]
          (handleTouchMove hypot vw vh state [t] s sig).1
          (handleTouchMove hypot vw vh state [t] s sig).2).2.pointer =
        (handleTouchMove hypot vw vh state [t] s sig).2.pointer) := by
  refine ⟨?_, ?_, ?_, ?_⟩
  · intro hypot vw vh state t p s sig hl
    exact move_single_pointer hypot vw vh state t p s sig hl
  · intro hypot vw vh now t s sig
    simp [handleTouchStart, pt]
  · intro hypot vw vh state t p s sig hl hvw hvh hx0 hx1 hy0 hy1
    rw [move_single_pointer hypot vw vh state t p s sig hl]
    refine ⟨div_nonneg hx0 (le_of_lt hvw), (div_le_one hvw).mpr hx1,
      div_nonneg hy0 (le_of_lt hvh), (div_le_one hvh).mpr hy1⟩
  · intro hypot vw vh state t p s sig hl
    rw [move_single_pointer hypot vw vh state t t _ _
      (move_lastTouch hypot vw vh state [t] s sig),
      move_single_pointer hypot vw vh state t p s sig hl]

/-- Witness for `pointer_normalized`: concrete move at (250, 500) in a
1000 by 1000 viewport. -/
theorem pointer_normalized_witness :
    ((⟨[⟨0, 0⟩], none, 0, none, false⟩ : TouchState).lastTouch = [⟨0, 0⟩]) ∧
    ((handleTouchMove hypotX 1000 1000 "FORMED" [⟨250, 500⟩]
        ⟨[⟨0, 0⟩], none, 0, none, false⟩ initSignals).2.pointer =
      ⟨(⟨250, 500⟩ : Point).x / 1000, (⟨250, 500⟩ : Point).y / 1000⟩) ∧
    ((0 : ℚ) < 1000 ∧ (0 : ℚ) < 1000 ∧ (0 : ℚ) ≤ (⟨250, 500⟩ : Point).x ∧
      (⟨250, 500⟩ : Point).x ≤ 1000 ∧ (0 : ℚ) ≤ (⟨250, 500⟩ : Point).y ∧
      (⟨250, 500⟩ : Point).y ≤ 1000) ∧
    (0 ≤ (handleTouchMove hypotX 1000 1000 "FORMED" [⟨250, 500⟩]
        ⟨[⟨0, 0⟩], none, 0, none, false⟩ initSignals).2.pointer.x ∧
      (handleTouchMove hypotX 1000 1000 "FORMED" [⟨250, 500⟩]
        ⟨[⟨0, 0⟩], none, 0, none, false⟩ initSignals).2.pointer.x ≤ 1 ∧
      0 ≤ (handleTouchMove hypotX 1000 1000 "FORMED" [⟨250, 500⟩]
        ⟨[⟨0, 0⟩], none, 0, none, false⟩ initSignals).2.pointer.y ∧
      (handleTouchMove hypotX 1000 1000 "FORMED" [⟨250, 500⟩]
        ⟨[⟨0, 0⟩], none, 0, none, false⟩ initSignals).2.pointer.y ≤ 1) :=
  ⟨rfl,
    pointer_normalized.1 hypotX 1000 1000 "FORMED" ⟨250, 500⟩ ⟨0, 0⟩
      ⟨[⟨0, 0⟩], none, 0, none, false⟩ initSignals rfl,
    by norm_num,
    pointer_normalized.2.2.1 hypotX 1000 1000 "FORMED" ⟨250, 500⟩ ⟨0, 0⟩
      ⟨[⟨0, 0⟩], none, 0, none, false⟩ initSignals rfl (by norm_num) (by norm_num)
      (by norm_num) (by norm_num) (by norm_num) (by norm_num)⟩

/-! ### Helper lemmas for the share-link round trip -/

/-- Two strings with the same character data are equal. -/
theorem string_data_ext (a b : String) (h : a.data = b.data) : a = b := by
  cases a
  cases b
  exact congrArg String.mk h

/-- A character that is not a hex digit does not occur in an all-hex
string. -/
theorem not_mem_of_all_hex (t : List Char) (h : t.all hexDigit = true)
    (x : Char) (hx : hexDigit x = false) : x ∉ t := by
  intro hm
  have hpx := List.all_eq_true.mp h x hm
  rw [hx] at hpx
  cases hpx

/-- A nonempty character list gives a nonempty string. -/
theorem mk_ne_empty (t : List Char) (h : t ≠ []) : String.mk t ≠ "" := by
  intro hc
  exact h (congrArg String.data hc)

/-- Lemma: `searchPart` skips any `'?'`-free prefix. -/
theorem searchPart_append (xs ys : List Char) (h : '?' ∉ xs) :
    searchPart (xs ++ ys) = searchPart ys := by
  induction xs with
  | nil => rfl
  | cons c cs ih =>
    have hc : ¬(c = '?') := fun hc => h (hc ▸ List.mem_cons_self _ _)
    simp only [List.cons_append, searchPart, if_neg hc]
    exact ih (fun hm => h (List.mem_cons_of_mem _ hm))

/-- An `'&'`-free segment is returned whole by `splitSegs`. -/
theorem splitSegs_no_amp (xs : List Char) (h : '&' ∉ xs) :
    splitSegs xs = [xs] := by
  induction xs with
  | nil => rfl
  | cons c cs ih =>
    have hc : ¬(c = '&') := fun hc => h (hc ▸ List.mem_cons_self _ _)
    simp only [splitSegs, if_neg hc, ih (fun hm => h (List.mem_cons_of_mem _ hm))]

/-- Lemma: `splitSegs` peels an `'&'`-free first segment at its separator. -/
theorem splitSegs_append (xs ys : List Char) (h : '&' ∉ xs) :
    splitSegs (xs ++ '&' :: ys) = xs :: splitSegs ys := by
  induction xs with
  | nil => simp [splitSegs]
  | cons c cs ih =>
    have hc : ¬(c = '&') := fun hc => h (hc ▸ List.mem_cons_self _ _)
    simp [List.cons_append, splitSegs, hc, List.append_eq,
      ih (fun hm => h (List.mem_cons_of_mem _ hm))]

/-- Lemma: `splitKV` splits an `'='`-free key from the value at the first
`'='`. -/
theorem splitKV_key (k v : List Char) (h : '=' ∉ k) :
    splitKV (k ++ '=' :: v) = (k, v) := by
  induction k with
  | nil => simp [splitKV]
  | cons c cs ih =>
    have hc : ¬(c = '=') := fun hc => h (hc ▸ List.mem_cons_self _ _)
    simp [List.cons_append, splitKV, hc, List.append_eq,
      ih (fun hm => h (List.mem_cons_of_mem _ hm))]

/-- Parameter lookup on the query string shape produced by
`generateShareLink` with hex values: each of `c1`, `c2`, `c3` is found
and returns its own value. -/
theorem getParam_share (t1 t2 t3 : List Char)
    (x1 : t1.all hexDigit = true) (x2 : t2.all hexDigit = true)
    (x3 : t3.all hexDigit = true) :
    (getParam ⟨'?' :: 'c' :: '1' :: '=' ::
        (t1 ++ '&' :: 'c' :: '2' :: '=' :: (t2 ++ '&' :: 'c' :: '3' :: '=' :: t3))⟩
      "c1" = some (String.mk t1)) ∧
    (getParam ⟨'?' :: 'c' :: '1' :: '=' ::
        (t1 ++ '&' :: 'c' :: '2' :: '=' :: (t2 ++ '&' :: 'c' :: '3' :: '=' :: t3))⟩
      "c2" = some (String.mk t2)) ∧
    (getParam ⟨'?' :: 'c' :: '1' :: '=' ::
        (t1 ++ '&' :: 'c' :: '2' :: '=' :: (t2 ++ '&' :: 'c' :: '3' :: '=' :: t3))⟩
      "c3" = some (String.mk t3)) := by
  have a1 : '&' ∉ t1 := not_mem_of_all_hex t1 x1 '&' (by decide)
  have a2 : '&' ∉ t2 := not_mem_of_all_hex t2 x2 '&' (by decide)
  have a3 : '&' ∉ t3 := not_mem_of_all_hex t3 x3 '&' (by decide)
  have q1 : '=' ∉ t1 := not_mem_of_all_hex t1 x1 '=' (by decide)
  have q2 : '=' ∉ t2 := not_mem_of_all_hex t2 x2 '=' (by decide)
  have q3 : '=' ∉ t3 := not_mem_of_all_hex t3 x3 '=' (by decide)
  have k1 : '&' ∉ 'c' :: '1' :: '=' :: t1 := by
    simp only [List.mem_cons, not_or]
    exact ⟨by decide, by decide, by decide, a1⟩
  have k2 : '&' ∉ 'c' :: '2' :: '=' :: t2 := by
    simp only [List.mem_cons, not_or]
    exact ⟨by decide, by decide, by decide, a2⟩
  have k3 : '&' ∉ 'c' :: '3' :: '=' :: t3 := by
    simp only [List.mem_cons, not_or]
    exact ⟨by decide, by decide, by decide, a3⟩
  have hsegs : splitSegs ('c' :: '1' :: '=' ::
      (t1 ++ '&' :: 'c' :: '2' :: '=' :: (t2 ++ '&' :: 'c' :: '3' :: '=' :: t3)))
      = [('c' :: '1' :: '=' :: t1), ('c' :: '2' :: '=' :: t2), ('c' :: '3' :: '=' :: t3)] := by
    have s1 : splitSegs (('c' :: '1' :: '=' :: t1) ++ '&' ::
        ('c' :: '2' :: '=' :: (t2 ++ '&' :: 'c' :: '3' :: '=' :: t3)))
        = ('c' :: '1' :: '=' :: t1) :: splitSegs
            ('c' :: '2' :: '=' :: (t2 ++ '&' :: 'c' :: '3' :: '=' :: t3)) :=
      splitSegs_append _ _ k1
    have s2 : splitSegs (('c' :: '2' :: '=' :: t2) ++ '&' :: ('c' :: '3' :: '=' :: t3))
        = ('c' :: '2' :: '=' :: t2) :: splitSegs ('c' :: '3' :: '=' :: t3) :=
      splitSegs_append _ _ k2
    have s3 : splitSegs ('c' :: '3' :: '=' :: t3) = [('c' :: '3' :: '=' :: t3)] :=
      splitSegs_no_amp _ k3
    calc splitSegs ('c' :: '1' :: '=' ::
          (t1 ++ '&' :: 'c' :: '2' :: '=' :: (t2 ++ '&' :: 'c' :: '3' :: '=' :: t3)))
        = ('c' :: '1' :: '=' :: t1) :: splitSegs
            ('c' :: '2' :: '=' :: (t2 ++ '&' :: 'c' :: '3' :: '=' :: t3)) := s1
      _ = ('c' :: '1' :: '=' :: t1) :: ('c' :: '2' :: '=' :: t2) ::
            splitSegs ('c' :: '3' :: '=' :: t3) := by rw [show ('c' :: '2' :: '=' ::
              (t2 ++ '&' :: 'c' :: '3' :: '=' :: t3))
              = (('c' :: '2' :: '=' :: t2) ++ '&' :: ('c' :: '3' :: '=' :: t3)) from rfl, s2]
      _ = [('c' :: '1' :: '=' :: t1), ('c' :: '2' :: '=' :: t2), ('c' :: '3' :: '=' :: t3)] := by
            rw [s3]
  have kv1 : splitKV ('c' :: '1' :: '=' :: t1) = (['c', '1'], t1) :=
    splitKV_key ['c', '1'] t1 (by decide)
  have kv2 : splitKV ('c' :: '2' :: '=' :: t2) = (['c', '2'], t2) :=
    splitKV_key ['c', '2'] t2 (by decide)
  have kv3 : splitKV ('c' :: '3' :: '=' :: t3) = (['c', '3'], t3) :=
    splitKV_key ['c', '3'] t3 (by decide)
  have hstrip : stripLeadQ ('?' :: 'c' :: '1' :: '=' ::
      (t1 ++ '&' :: 'c' :: '2' :: '=' :: (t2 ++ '&' :: 'c' :: '3' :: '=' :: t3)))
      = 'c' :: '1' :: '=' ::
        (t1 ++ '&' :: 'c' :: '2' :: '=' :: (t2 ++ '&' :: 'c' :: '3' :: '=' :: t3)) := by
    simp [stripLeadQ]
  refine ⟨?_, ?_, ?_⟩ <;>
    simp [getParam, hstrip, hsegs, kv1, kv2, kv3, List.filterMap]

/-- C10: for a configuration whose three colours are `'#'` followed by a
nonempty hex string, loading the query parameters `c1`, `c2`, `c3` of
the URL produced by `generateShareLink` restores exactly the three
colour values and drops `photoUrl`; conversely, when any of the three
parameters is absent from the query string, the configuration is left
unchanged. -/
theorem share_link_roundtrip :
    (∀ (origin pathname : String) (cfg cfg0 : TreeConfig) (t1 t2 t3 : List Char),
      '?' ∉ origin.data → '#' ∉ origin.data →
      '?' ∉ pathname.data → '#' ∉ pathname.data →
      cfg.primaryColor.data = '#' :: t1 → t1.all hexDigit = true → t1 ≠ [] →
      cfg.accentColor.data = '#' :: t2 → t2.all hexDigit = true → t2 ≠ [] →
      cfg.lightColor.data = '#' :: t3 → t3.all hexDigit = true → t3 ≠ [] →
      loadFromParams (locationSearch (generateShareLink origin pathname cfg)) cfg0 =
        ⟨cfg.primaryColor, cfg.accentColor, cfg.lightColor, none⟩) ∧
    (∀ (search : String) (cfg : TreeConfig),
      (getParam search "c1" = none ∨ getParam search "c2" = none ∨
        getParam search "c3" = none) →
      loadFromParams search cfg = cfg) := by
  constructor
  · intro origin pathname cfg cfg0 t1 t2 t3 ho1 _ho2 hp1 _hp2 e1 x1 n1 e2 x2 n2 e3 x3 n3
    have hshare : (shareSearch cfg).data = '?' :: 'c' :: '1' :: '=' ::
        (t1 ++ '&' :: 'c' :: '2' :: '=' :: (t2 ++ '&' :: 'c' :: '3' :: '=' :: t3)) := by
      simp [shareSearch, String.data_append, e1, e2, e3, stripHash,
        show ("?c1=" : String).data = ['?', 'c', '1', '='] from rfl,
        show ("&c2=" : String).data = ['&', 'c', '2', '='] from rfl,
        show ("&c3=" : String).data = ['&', 'c', '3', '='] from rfl]
    have hno : '?' ∉ origin.data ++ pathname.data := by
      simp only [List.mem_append, not_or]
      exact ⟨ho1, hp1⟩
    have hdata : (generateShareLink origin pathname cfg).data
        = (origin.data ++ pathname.data) ++ (shareSearch cfg).data := by
      simp only [generateShareLink, String.data_append]
    have hls : (locationSearch (generateShareLink origin pathname cfg)).data
        = '?' :: 'c' :: '1' :: '=' ::
          (t1 ++ '&' :: 'c' :: '2' :: '=' :: (t2 ++ '&' :: 'c' :: '3' :: '=' :: t3)) := by
      show searchPart (generateShareLink origin pathname cfg).data = _
      rw [hdata, searchPart_append _ _ hno, hshare]
      simp [searchPart]
    have hlseq : locationSearch (generateShareLink origin pathname cfg)
        = (⟨'?' :: 'c' :: '1' :: '=' ::
            (t1 ++ '&' :: 'c' :: '2' :: '=' :: (t2 ++ '&' :: 'c' :: '3' :: '=' :: t3))⟩ : String) :=
      string_data_ext _ _ hls
    obtain ⟨g1, g2, g3⟩ := getParam_share t1 t2 t3 x1 x2 x3
    rw [hlseq]
    simp only [loadFromParams, g1, g2, g3]
    rw [if_pos ⟨mk_ne_empty t1 n1, mk_ne_empty t2 n2, mk_ne_empty t3 n3⟩]
    have c1 : "#" ++ String.mk t1 = cfg.primaryColor :=
      string_data_ext _ _ (by simp [String.data_append, e1])
    have c2 : "#" ++ String.mk t2 = cfg.accentColor :=
      string_data_ext _ _ (by simp [String.data_append, e2])
    have c3 : "#" ++ String.mk t3 = cfg.lightColor :=
      string_data_ext _ _ (by simp [String.data_append, e3])
    rw [c1, c2, c3]
  · intro search cfg h
    rcases h with h | h | h
    · unfold loadFromParams
      rw [h]
    · cases hc1 : getParam search "c1" with
      | none => unfold loadFromParams; rw [hc1]
      | some v1 => unfold loadFromParams; rw [hc1, h]
    · cases hc1 : getParam search "c1" with
      | none => unfold loadFromParams; rw [hc1]
      | some v1 =>
        cases hc2 : getParam search "c2" with
        | none => unfold loadFromParams; rw [hc1, hc2]
        | some v2 => unfold loadFromParams; rw [hc1, hc2, h]

/-- Witness for `share_link_roundtrip`: a concrete configuration round
trips through a concrete URL, and a query string missing `c3` leaves a
concrete configuration unchanged. -/
theorem share_link_roundtrip_witness :
    ('?' ∉ "https://e.com".data ∧ '#' ∉ "https://e.com".data ∧
      '?' ∉ "/t".data ∧ '#' ∉ "/t".data ∧
      ("#aabbcc" : String).data = '#' :: ['a', 'a', 'b', 'b', 'c', 'c'] ∧
      (['a', 'a', 'b', 'b', 'c', 'c'].all hexDigit = true) ∧
      (['a', 'a', 'b', 'b', 'c', 'c'] : List Char) ≠ [] ∧
      ("#112233" : String).data = '#' :: ['1', '1', '2', '2', '3', '3'] ∧
      (['1', '1', '2', '2', '3', '3'].all hexDigit = true) ∧
      (['1', '1', '2', '2', '3', '3'] : List Char) ≠ [] ∧
      ("#f0f0f0" : String).data = '#' :: ['f', '0', 'f', '0', 'f', '0'] ∧
      (['f', '0', 'f', '0', 'f', '0'].all hexDigit = true) ∧
      (['f', '0', 'f', '0', 'f', '0'] : List Char) ≠ [] ∧
      loadFromParams (locationSearch (generateShareLink "https://e.com" "/t"
          ⟨"#aabbcc", "#112233", "#f0f0f0", some "p"⟩)) ⟨"x", "y", "z", none⟩ =
        ⟨"#aabbcc", "#112233", "#f0f0f0", none⟩) ∧
    (getParam "?c1=aa&c2=bb" "c3" = none ∧
      loadFromParams "?c1=aa&c2=bb" ⟨"x", "y", "z", none⟩ = ⟨"x", "y", "z", none⟩) :=
  ⟨⟨by decide, by decide, by decide, by decide, by decide, by decide, by decide,
      by decide, by decide, by decide, by decide, by decide, by decide,
      share_link_roundtrip.1 "https://e.com" "/t"
        ⟨"#aabbcc", "#112233", "#f0f0f0", some "p"⟩ ⟨"x", "y", "z", none⟩
        ['a', 'a', 'b', 'b', 'c', 'c'] ['1', '1', '2', '2', '3', '3']
        ['f', '0', 'f', '0', 'f', '0']
        (by decide) (by decide) (by decide) (by decide) (by decide) (by decide)
        (by decide) (by decide) (by decide) (by decide) (by decide) (by decide)
        (by decide)⟩,
    ⟨by decide,
      share_link_roundtrip.2 "?c1=aa&c2=bb" ⟨"x", "y", "z", none⟩
        (Or.inr (Or.inr (by decide)))⟩⟩

end GGTree
